import Mathlib

/-!
Shallow embedding of `src/timer_sentinel/core.py` (class `TimerSentinel`).

Modelling conventions:
* Clock readings (`time.perf_counter()`) are rationals supplied as explicit
  arguments to the operations that read the clock.
* The log sink is external; a call `self._logger.log(level, msg)` is recorded
  as a trace event (`Event.log`) rather than modelled as state.
* Python exceptions are values of `PyErr`; an operation that raises returns
  `Except.error`.
* The configured on-exceed callback is an external procedure; it is modelled
  as a function from the expanded keyword arguments to `Except PyErr Unit`
  (so it may itself raise).
* `uuid4().hex[:8]` is external randomness, supplied to `init` as the
  `execution_id` argument.
* Mutating methods return the new object state explicitly.
-/

/-- A Python value appearing in `callback_args` (only strings and integers
are needed for the scenarios in the spec). -/
inductive PyVal where
  | str (s : String)
  | int (n : Int)
deriving DecidableEq, Repr

/-- A Python exception: either a `RuntimeError` raised by the timer itself,
or an arbitrary exception `exc` raised by user code or a callback. -/
inductive PyErr where
  | runtimeError (msg : String)
  | exc (msg : String)
deriving DecidableEq, Repr

/-- An observable effect of `report`: a log-sink call or a callback
invocation (with the keyword arguments it was applied to). -/
inductive Event where
  | log (level : Nat) (msg : String)
  | callbackCall (args : List (String × PyVal))
deriving DecidableEq, Repr

instance {ε α : Type} [DecidableEq ε] [DecidableEq α] :
    DecidableEq (Except ε α) := fun a b =>
  match a, b with
  | Except.error e1, Except.error e2 =>
    match decEq e1 e2 with
    | isTrue h => isTrue (by rw [h])
    | isFalse h => isFalse (by intro hh; injection hh; exact h (by assumption))
  | Except.error _, Except.ok _ => isFalse (by intro hh; injection hh)
  | Except.ok _, Except.error _ => isFalse (by intro hh; injection hh)
  | Except.ok a1, Except.ok a2 =>
    match decEq a1 a2 with
    | isTrue h => isTrue (by rw [h])
    | isFalse h => isFalse (by intro hh; injection hh; exact h (by assumption))

/-- `DEFAULT_TIMER_NAME` from `core.py`. -/
def DEFAULT_TIMER_NAME : String := "TimerSentinel"

/-- `logging.WARNING`, the default `on_exceed_level`. -/
def WARNING : Nat := 30

/-- The state of a `TimerSentinel` object: one field per slot of the Python
class (the external `_logger` collaborator is modelled by the event trace
instead of a field). -/
structure TimerSentinel where
  threshold : ℚ
  name : String
  use_func_name : Bool
  on_exceed_keyword : String
  on_exceed_level : Nat
  on_exceed_callback : Option (List (String × PyVal) → Except PyErr Unit)
  callback_args : List (String × PyVal)
  execution_id : String
  timer : Option ℚ
  total_time : Option ℚ

/-- `TimerSentinel.__init__`.  `name = none` models omitting the argument,
`some ""` the empty string; `_use_func_name = not name` and
`name or DEFAULT_TIMER_NAME` use Python truthiness (both `None` and `""` are
falsy).  `callback_args or {}` likewise.  The constructor is a total
function: it performs no validation of any argument. -/
def TimerSentinel.init (threshold : ℚ) (name : Option String)
    (on_exceed_keyword : String) (on_exceed_level : Nat)
    (on_exceed_callback : Option (List (String × PyVal) → Except PyErr Unit))
    (callback_args : Option (List (String × PyVal)))
    (execution_id : String) : TimerSentinel :=
  { threshold := threshold
    use_func_name := match name with
      | none => true
      | some s => s.isEmpty
    name := match name with
      | none => DEFAULT_TIMER_NAME
      | some s => if s.isEmpty then DEFAULT_TIMER_NAME else s
    on_exceed_keyword := on_exceed_keyword
    on_exceed_level := on_exceed_level
    on_exceed_callback := on_exceed_callback
    callback_args := callback_args.getD []
    execution_id := execution_id
    timer := none
    total_time := none }

/-- `TimerSentinel.start`: stores the current clock reading in `_timer`. -/
def TimerSentinel.start (st : TimerSentinel) (now : ℚ) : TimerSentinel :=
  { st with timer := some now }

/-- `TimerSentinel.end`: raises `RuntimeError("Timer not started")` when
`_timer` is `None`, otherwise sets `_total_time := now - _timer`.
(`end` is a Lean keyword, hence the underscore.) -/
def TimerSentinel.end_ (st : TimerSentinel) (now : ℚ) :
    TimerSentinel × Except PyErr Unit :=
  match st.timer with
  | none => (st, Except.error (PyErr.runtimeError "Timer not started"))
  | some t => ({ st with total_time := some (now - t) }, Except.ok ())

/-- The character for a decimal digit `d < 10`. -/
def digitChar (d : Nat) : Char := Char.ofNat (48 + d)

/-- Decimal digits, most significant first, by structural recursion on a
fuel bound (so that it evaluates by kernel reduction).  With `fuel > 0` and
`n < 10 ^ fuel` it produces every digit of `n`. -/
def natReprAux (fuel n : Nat) : List Char :=
  match fuel with
  | 0 => []
  | fuel + 1 =>
    if n < 10 then [digitChar n]
    else natReprAux fuel (n / 10) ++ [digitChar (n % 10)]

/-- Decimal digits of a natural number, most significant first
(Python's rendering of the integer part of a float). -/
def natRepr (n : Nat) : List Char := natReprAux (n + 1) n

/-- The four zero-padded digits of `n % 10000`: the fractional field of a
`:.4f` rendering. -/
def frac4 (n : Nat) : List Char :=
  [digitChar (n / 1000 % 10), digitChar (n / 100 % 10),
    digitChar (n / 10 % 10), digitChar (n % 10)]

/-- Rounding of a rational to the nearest integer (`⌊q + 1/2⌋`, written out
on numerator and denominator so that it evaluates by kernel reduction). -/
def ratRound (q : ℚ) : ℤ := Int.fdiv (2 * q.num + (q.den : ℤ)) (2 * (q.den : ℤ))

/-- `:.4f` formatting of a nonnegative rational: round to the nearest
1/10000, then print integer part, a dot, and exactly four fractional
digits. -/
def fmt4abs (q : ℚ) : String :=
  String.mk (natRepr ((ratRound (q * 10000)).toNat / 10000)) ++ "." ++
    String.mk (frac4 ((ratRound (q * 10000)).toNat % 10000))

/-- Python's `f"{q:.4f}"`, modelled over ℚ (sign, then magnitude). -/
def fmt4 (q : ℚ) : String :=
  if q < 0 then "-" ++ fmt4abs (-q) else fmt4abs q

/-- The log message built by `report` when the threshold is exceeded:
`f"{kw} | {name}.{execution_id} | {total:.4f}s > {threshold:.4f}s"`. -/
def TimerSentinel.mkMsg (st : TimerSentinel) (total : ℚ) : String :=
  st.on_exceed_keyword ++ " | " ++ st.name ++ "." ++ st.execution_id ++
    " | " ++ fmt4 total ++ "s > " ++ fmt4 st.threshold ++ "s"

/-- `TimerSentinel.report`: raises `RuntimeError("Timer not ended")` when
`_total_time` is `None`; if `_total_time > threshold`, logs one record at
`_on_exceed_level` and then, if a callback is configured, invokes it with
`**callback_args`; otherwise does nothing.  Returns the (unmodified) state,
the trace of emitted events in order, and the raised exception if any. -/
def TimerSentinel.report (st : TimerSentinel) :
    TimerSentinel × List Event × Except PyErr Unit :=
  match st.total_time with
  | none => (st, [], Except.error (PyErr.runtimeError "Timer not ended"))
  | some total =>
    if total > st.threshold then
      match st.on_exceed_callback with
      | some f =>
          (st, [Event.log st.on_exceed_level (st.mkMsg total),
                Event.callbackCall st.callback_args],
            f st.callback_args)
      | none =>
          (st, [Event.log st.on_exceed_level (st.mkMsg total)], Except.ok ())
    else (st, [], Except.ok ())

/-- One invocation of the wrapper produced by `TimerSentinel._wrap_sync`:
assign the function name if `_use_func_name`, `start()` at clock `t0`, run
the function (its outcome `func_result` is captured), then — `finally` —
`end()` at clock `t1` and `report()`.  Per Python semantics an exception
raised inside the `finally` block replaces the captured outcome. -/
def TimerSentinel.wrap_sync_call {α : Type} (st : TimerSentinel)
    (func_name : String) (func_result : Except PyErr α) (t0 t1 : ℚ) :
    TimerSentinel × List Event × Except PyErr α :=
  let st1 := if st.use_func_name then { st with name := func_name } else st
  let st2 := st1.start t0
  let er := st2.end_ t1
  match er.2 with
  | Except.error e => (er.1, [], Except.error e)
  | Except.ok _ =>
    let r := er.1.report
    match r.2.2 with
    | Except.error e => (r.1, r.2.1, Except.error e)
    | Except.ok _ => (r.1, r.2.1, func_result)

/-- One invocation of the wrapper produced by `TimerSentinel._wrap_async`:
the body is identical to the sync wrapper (the `await` point is the
captured `func_result`). -/
def TimerSentinel.wrap_async_call {α : Type} (st : TimerSentinel)
    (func_name : String) (func_result : Except PyErr α) (t0 t1 : ℚ) :
    TimerSentinel × List Event × Except PyErr α :=
  let st1 := if st.use_func_name then { st with name := func_name } else st
  let st2 := st1.start t0
  let er := st2.end_ t1
  match er.2 with
  | Except.error e => (er.1, [], Except.error e)
  | Except.ok _ =>
    let r := er.1.report
    match r.2.2 with
    | Except.error e => (r.1, r.2.1, Except.error e)
    | Except.ok _ => (r.1, r.2.1, func_result)

/-- `TimerSentinel.__enter__`: starts the timer and returns `self`. -/
def TimerSentinel.enter (st : TimerSentinel) (t0 : ℚ) : TimerSentinel :=
  st.start t0

/-- `TimerSentinel.__exit__`: calls `end()` then `report()`; returns `None`,
so it never suppresses the block's exception. -/
def TimerSentinel.exit_ (st : TimerSentinel) (t1 : ℚ) :
    TimerSentinel × List Event × Except PyErr Unit :=
  match st.end_ t1 with
  | (st2, Except.error e) => (st2, [], Except.error e)
  | (st2, Except.ok _) => st2.report

/-- A whole `with` statement: `__enter__` at clock `t0`, the block's
captured outcome `block_result`, then `__exit__` at clock `t1`.  Per Python
semantics, an exception raised by `__exit__` replaces the block's outcome;
otherwise the block's outcome propagates unchanged (the `__exit__` return
value `None` is falsy, so exceptions are never suppressed). -/
def TimerSentinel.with_block {α : Type} (st : TimerSentinel)
    (block_result : Except PyErr α) (t0 t1 : ℚ) :
    TimerSentinel × List Event × Except PyErr α :=
  let r := (st.enter t0).exit_ t1
  match r.2.2 with
  | Except.error e => (r.1, r.2.1, Except.error e)
  | Except.ok _ => (r.1, r.2.1, block_result)

/-- The object state after `start()` at `t0` and `end()` at `t1`. -/
def TimerSentinel.ended_state (st : TimerSentinel) (t0 t1 : ℚ) :
    TimerSentinel :=
  { st with timer := some t0, total_time := some (t1 - t0) }

/-- The object state after one wrapper invocation's name assignment,
`start()` at `t0` and `end()` at `t1`. -/
def TimerSentinel.cycle_state (st : TimerSentinel) (func_name : String)
    (t0 t1 : ℚ) : TimerSentinel :=
  TimerSentinel.ended_state
    (if st.use_func_name then { st with name := func_name } else st) t0 t1

/-- `needle` occurs as a contiguous substring of `hay`. -/
def strContains (hay needle : String) : Prop :=
  needle.data <:+: hay.data

/-- `s` contains no newline character (it is a single line). -/
def noNewline (s : String) : Prop := '\n' ∉ s.data

/-- `Event.is_callback`: recogniser for callback-invocation events. -/
def Event.is_callback : Event → Bool
  | Event.callbackCall _ => true
  | _ => false

/-! ### Helper lemmas -/

/-- `report` never writes a field: the returned state is the input state. -/
theorem report_fst (st : TimerSentinel) : (st.report).1 = st := by
  unfold TimerSentinel.report
  rcases st.total_time with _ | total
  · rfl
  · dsimp only
    split
    · rcases st.on_exceed_callback with _ | f <;> rfl
    · rfl

theorem strContains_refl (s : String) : strContains s s :=
  ⟨[], [], by simp⟩

theorem strContains_app_left {a n : String} (b : String)
    (h : strContains a n) : strContains (a ++ b) n := by
  obtain ⟨p, s, hps⟩ := h
  exact ⟨p, s ++ b.data, by simp [String.data_append, ← hps]⟩

theorem strContains_app_right {b n : String} (a : String)
    (h : strContains b n) : strContains (a ++ b) n := by
  obtain ⟨p, s, hps⟩ := h
  exact ⟨a.data ++ p, s, by simp [String.data_append, ← hps]⟩

/-! ### Claims -/

/-- C1: for every `threshold > 0` and measured `elapsed`, `report()` emits a
log record iff `elapsed > threshold` strictly; when `elapsed <= threshold`
it emits no log, invokes no callback, raises nothing, and leaves the state
unchanged. -/
theorem c1_report_iff_strict (st : TimerSentinel) (e : ℚ)
    (hth : 0 < st.threshold) (he : st.total_time = some e) :
    ((∃ lvl m, Event.log lvl m ∈ (st.report).2.1) ↔ st.threshold < e) ∧
    (e ≤ st.threshold →
      (st.report).1 = st ∧ (st.report).2.1 = [] ∧
        (st.report).2.2 = Except.ok ()) := by
  unfold TimerSentinel.report
  rw [he]
  dsimp only
  constructor
  · constructor
    · rintro ⟨lvl, m, hm⟩
      by_contra hle
      rw [if_neg hle] at hm
      simp at hm
    · intro hgt
      rw [if_pos hgt]
      rcases st.on_exceed_callback with _ | f <;>
        exact ⟨st.on_exceed_level, st.mkMsg e, by simp⟩
  · intro hle
    rw [if_neg (by exact fun hgt => absurd hle (not_le.mpr hgt))]
    exact ⟨rfl, rfl, rfl⟩

/-- C3: `end()` before `start()` raises `RuntimeError("Timer not started")`
and leaves the state unchanged; `report()` before `end()` raises
`RuntimeError("Timer not ended")` and leaves the state unchanged. -/
theorem c3_usage_errors (st st2 : TimerSentinel)
    (h1 : st.timer = none) (h2 : st2.total_time = none) :
    (∀ now, st.end_ now =
      (st, Except.error (PyErr.runtimeError "Timer not started"))) ∧
    st2.report =
      (st2, [], Except.error (PyErr.runtimeError "Timer not ended")) := by
  constructor
  · intro now
    unfold TimerSentinel.end_
    rw [h1]
  · unfold TimerSentinel.report
    rw [h2]

/-- C5: constructing with the name omitted (`none`) or the empty string
yields the fixed default name `"TimerSentinel"`; a non-empty supplied name
is stored unchanged. -/
theorem c5_default_name (threshold : ℚ) (kw : String) (lvl : Nat)
    (cb : Option (List (String × PyVal) → Except PyErr Unit))
    (cba : Option (List (String × PyVal))) (eid : String)
    (s : String) (hs : s ≠ "") :
    (TimerSentinel.init threshold none kw lvl cb cba eid).name =
      "TimerSentinel" ∧
    (TimerSentinel.init threshold (some "") kw lvl cb cba eid).name =
      "TimerSentinel" ∧
    (TimerSentinel.init threshold (some s) kw lvl cb cba eid).name = s := by
  refine ⟨rfl, rfl, ?_⟩
  unfold TimerSentinel.init
  dsimp only
  rw [if_neg (by simpa [String.isEmpty_iff] using hs)]

/-- A concrete freshly-constructed sentinel (threshold 1s, explicit name),
used by the witnesses. -/
def wSt : TimerSentinel :=
  TimerSentinel.init 1 (some "test") "OVERTIME" WARNING none none "abcd1234"

/-- `wSt` after a measurement of 2s was recorded (over the 1s threshold). -/
def wStEnded : TimerSentinel := { wSt with total_time := some 2 }

theorem c1_report_iff_strict_witness :
    ((0 : ℚ) < wStEnded.threshold ∧ wStEnded.total_time = some 2) ∧
    ((∃ lvl m, Event.log lvl m ∈ (wStEnded.report).2.1) ↔
        wStEnded.threshold < 2) ∧
    ((2 : ℚ) ≤ wStEnded.threshold →
      (wStEnded.report).1 = wStEnded ∧ (wStEnded.report).2.1 = [] ∧
        (wStEnded.report).2.2 = Except.ok ()) :=
  ⟨⟨by norm_num [wStEnded, wSt, TimerSentinel.init], rfl⟩,
    c1_report_iff_strict wStEnded 2
      (by norm_num [wStEnded, wSt, TimerSentinel.init]) rfl⟩

theorem c3_usage_errors_witness :
    (wSt.timer = none ∧ wSt.total_time = none) ∧
    (∀ now, wSt.end_ now =
      (wSt, Except.error (PyErr.runtimeError "Timer not started"))) ∧
    wSt.report =
      (wSt, [], Except.error (PyErr.runtimeError "Timer not ended")) :=
  ⟨⟨rfl, rfl⟩, c3_usage_errors wSt wSt rfl rfl⟩

theorem c5_default_name_witness :
    ("custom" : String) ≠ "" ∧
    ((TimerSentinel.init 1 none "OVERTIME" 30 none none "abcd1234").name =
        "TimerSentinel" ∧
      (TimerSentinel.init 1 (some "") "OVERTIME" 30 none none
          "abcd1234").name = "TimerSentinel" ∧
      (TimerSentinel.init 1 (some "custom") "OVERTIME" 30 none none
          "abcd1234").name = "custom") :=
  ⟨by decide, c5_default_name 1 "OVERTIME" 30 none none "abcd1234" "custom"
    (by decide)⟩

/-- C7: when `elapsed > threshold` and a callback is configured, `report()`
invokes it exactly once, with `callback_args` expanded as its named
arguments; with no callback configured, only the log record is emitted. -/
theorem c7_callback_exactly_once (st : TimerSentinel) (e : ℚ)
    (he : st.total_time = some e) (hover : st.threshold < e) :
    (∀ f, st.on_exceed_callback = some f →
      (st.report).2.1.filter Event.is_callback =
          [Event.callbackCall st.callback_args] ∧
        (st.report).2.2 = f st.callback_args) ∧
    (st.on_exceed_callback = none →
      (st.report).2.1 = [Event.log st.on_exceed_level (st.mkMsg e)]) := by
  unfold TimerSentinel.report
  rw [he]
  dsimp only
  rw [if_pos hover]
  constructor
  · intro f hf
    rw [hf]
    exact ⟨by simp [Event.is_callback], rfl⟩
  · intro hf
    rw [hf]

/-- C8: the constructor is total and stores any threshold (zero or negative
included) unchanged, and `report()` logs whenever `elapsed` is strictly
greater than the stored threshold — with `threshold <= 0`, for every
positive measurement. -/
theorem c8_no_threshold_validation (th : ℚ) (nm : Option String)
    (kw : String) (lvl : Nat)
    (cb : Option (List (String × PyVal) → Except PyErr Unit))
    (cba : Option (List (String × PyVal))) (eid : String) :
    (TimerSentinel.init th nm kw lvl cb cba eid).threshold = th ∧
    (∀ st : TimerSentinel, ∀ e : ℚ, st.total_time = some e →
      st.threshold ≤ 0 → 0 < e →
      Event.log st.on_exceed_level (st.mkMsg e) ∈ (st.report).2.1) := by
  refine ⟨rfl, ?_⟩
  intro st e he hth hpos
  unfold TimerSentinel.report
  rw [he]
  dsimp only
  rw [if_pos (lt_of_le_of_lt hth hpos)]
  rcases hcb : st.on_exceed_callback with _ | f <;> simp [hcb]

/-- `report` never reads `_timer`: its emitted events and outcome are
unchanged by overwriting `_timer`. -/
theorem report_timer_irrel (st : TimerSentinel) (tmr : Option ℚ) :
    ({ st with timer := tmr } : TimerSentinel).report.2 = st.report.2 := by
  unfold TimerSentinel.report
  dsimp only
  rcases ht : st.total_time with _ | e
  · rfl
  · dsimp only
    by_cases h : e > st.threshold
    · rw [if_pos h, if_pos h]
      unfold TimerSentinel.mkMsg
      dsimp only
      rcases hcb : st.on_exceed_callback with _ | f <;> rfl
    · rw [if_neg h, if_neg h]

/-- C9: `start()` overwrites `_timer` but leaves `_total_time` intact:
after a completed cycle, `start()` followed by `report()` (no `end()` in
between) does not raise the "Timer not ended" error and re-reports the
previous cycle's elapsed value (its observable output is identical to
reporting before the new `start()`). -/
theorem c9_start_does_not_clear_elapsed (st ste : TimerSentinel)
    (t0 t1 t2 : ℚ)
    (hend : (st.start t0).end_ t1 = (ste, Except.ok ())) :
    (ste.start t2).total_time = some (t1 - t0) ∧
    ((ste.start t2).report).2 = (ste.report).2 ∧
    ((ste.start t2).report).2 ≠
      ([], Except.error (PyErr.runtimeError "Timer not ended")) := by
  have hste : ste =
      { st with timer := some t0, total_time := some (t1 - t0) } := by
    have h0 : (st.start t0).end_ t1 =
        ({ st with timer := some t0, total_time := some (t1 - t0) },
          Except.ok ()) := rfl
    rw [h0] at hend
    exact (congrArg Prod.fst hend).symm
  subst hste
  have h2 :
      ((({ st with timer := some t0, total_time := some (t1 - t0) } : TimerSentinel).start t2).report).2 =
      ({ st with timer := some t0, total_time := some (t1 - t0) } : TimerSentinel).report.2 :=
    report_timer_irrel _ (some t2)
  refine ⟨rfl, h2, ?_⟩
  rw [h2]
  unfold TimerSentinel.report
  dsimp only
  split
  · rcases hcb : st.on_exceed_callback with _ | f <;> simp [hcb]
  · simp

/-- C10: in an over-threshold `report()` with a configured callback, the log
record is emitted strictly before the callback runs; if the callback raises,
that exception propagates out of `report()` with the log record already in
the trace and every field of the sentinel unchanged. -/
theorem c10_log_precedes_callback (st : TimerSentinel) (e : ℚ)
    (f : List (String × PyVal) → Except PyErr Unit) (err : PyErr)
    (he : st.total_time = some e) (hover : st.threshold < e)
    (hcb : st.on_exceed_callback = some f)
    (hrs : f st.callback_args = Except.error err) :
    st.report = (st,
      [Event.log st.on_exceed_level (st.mkMsg e),
        Event.callbackCall st.callback_args],
      Except.error err) := by
  unfold TimerSentinel.report
  rw [he]
  dsimp only
  rw [if_pos hover, hcb]
  dsimp only
  rw [hrs]

/-- A callback that succeeds, for the witnesses. -/
def wCbOk : List (String × PyVal) → Except PyErr Unit := fun _ => Except.ok ()

/-- A callback that raises `exc "boom"`, for the witnesses. -/
def wCbBoom : List (String × PyVal) → Except PyErr Unit :=
  fun _ => Except.error (PyErr.exc "boom")

/-- `wStEnded` with a succeeding callback and the spec's example
`callback_args`. -/
def wStCb : TimerSentinel :=
  { wStEnded with
      on_exceed_callback := some wCbOk
      callback_args := [("name", PyVal.str "x"), ("value", PyVal.int 42)] }

/-- `wStEnded` with a raising callback. -/
def wStBoom : TimerSentinel :=
  { wStEnded with on_exceed_callback := some wCbBoom }

/-- `wStEnded` with a nonpositive threshold. -/
def wStNeg : TimerSentinel := { wStEnded with threshold := -1 }

theorem c7_callback_exactly_once_witness :
    (wStCb.total_time = some 2 ∧ wStCb.threshold < 2) ∧
    (∀ f, wStCb.on_exceed_callback = some f →
      (wStCb.report).2.1.filter Event.is_callback =
          [Event.callbackCall wStCb.callback_args] ∧
        (wStCb.report).2.2 = f wStCb.callback_args) ∧
    (wStCb.on_exceed_callback = none →
      (wStCb.report).2.1 = [Event.log wStCb.on_exceed_level (wStCb.mkMsg 2)]) :=
  ⟨⟨rfl, by norm_num [wStCb, wStEnded, wSt, TimerSentinel.init]⟩,
    c7_callback_exactly_once wStCb 2 rfl
      (by norm_num [wStCb, wStEnded, wSt, TimerSentinel.init])⟩

theorem c8_no_threshold_validation_witness :
    (wStNeg.total_time = some 2 ∧ wStNeg.threshold ≤ 0 ∧ (0 : ℚ) < 2) ∧
    (TimerSentinel.init (-1) (some "test") "OVERTIME" 30 none none
        "abcd1234").threshold = -1 ∧
    Event.log wStNeg.on_exceed_level (wStNeg.mkMsg 2) ∈ (wStNeg.report).2.1 :=
  ⟨⟨rfl, by norm_num [wStNeg, wStEnded, wSt, TimerSentinel.init], by norm_num⟩,
    (c8_no_threshold_validation (-1) (some "test") "OVERTIME" 30 none none
        "abcd1234").1,
    (c8_no_threshold_validation (-1) (some "test") "OVERTIME" 30 none none
        "abcd1234").2 wStNeg 2 rfl
      (by norm_num [wStNeg, wStEnded, wSt, TimerSentinel.init]) (by norm_num)⟩

theorem c9_start_does_not_clear_elapsed_witness :
    (wSt.start 0).end_ 2 =
      ({ wSt with timer := some 0, total_time := some ((2 : ℚ) - 0) },
        Except.ok ()) ∧
    (({ wSt with timer := some 0, total_time := some ((2 : ℚ) - 0) } : TimerSentinel).start 5).total_time =
      some ((2 : ℚ) - 0) ∧
    ((({ wSt with timer := some 0, total_time := some ((2 : ℚ) - 0) } : TimerSentinel).start 5).report).2 ≠
      ([], Except.error (PyErr.runtimeError "Timer not ended")) :=
  ⟨rfl,
    (c9_start_does_not_clear_elapsed wSt _ 0 2 5 rfl).1,
    (c9_start_does_not_clear_elapsed wSt _ 0 2 5 rfl).2.2⟩

theorem c10_log_precedes_callback_witness :
    (wStBoom.total_time = some 2 ∧ wStBoom.threshold < 2 ∧
      wStBoom.on_exceed_callback = some wCbBoom ∧
      wCbBoom wStBoom.callback_args = Except.error (PyErr.exc "boom")) ∧
    wStBoom.report = (wStBoom,
      [Event.log wStBoom.on_exceed_level (wStBoom.mkMsg 2),
        Event.callbackCall wStBoom.callback_args],
      Except.error (PyErr.exc "boom")) :=
  ⟨⟨rfl, by norm_num [wStBoom, wStEnded, wSt, TimerSentinel.init], rfl, rfl⟩,
    c10_log_precedes_callback wStBoom 2 wCbBoom (PyErr.exc "boom") rfl
      (by norm_num [wStBoom, wStEnded, wSt, TimerSentinel.init]) rfl rfl⟩

/-- Unfolding of one sync-wrapper invocation: the final state is the
post-`end()` state, the trace is `report`'s trace of that state, and the
outcome is the function's outcome unless `report` raised. -/
theorem wrap_sync_call_eq {α : Type} (st : TimerSentinel) (fn : String)
    (fr : Except PyErr α) (t0 t1 : ℚ) :
    st.wrap_sync_call fn fr t0 t1 =
      (((st.cycle_state fn t0 t1).report).1,
        ((st.cycle_state fn t0 t1).report).2.1,
        match ((st.cycle_state fn t0 t1).report).2.2 with
        | Except.error e => Except.error e
        | Except.ok _ => fr) := by
  show (match ((st.cycle_state fn t0 t1).report).2.2 with
    | Except.error e =>
        (((st.cycle_state fn t0 t1).report).1,
          ((st.cycle_state fn t0 t1).report).2.1, Except.error e)
    | Except.ok _ =>
        (((st.cycle_state fn t0 t1).report).1,
          ((st.cycle_state fn t0 t1).report).2.1, fr)) = _
  rcases h : ((st.cycle_state fn t0 t1).report).2.2 with e | u <;> simp [h]

/-- The async wrapper's body is the sync wrapper's body. -/
theorem wrap_async_call_eq_sync {α : Type} (st : TimerSentinel) (fn : String)
    (fr : Except PyErr α) (t0 t1 : ℚ) :
    st.wrap_async_call fn fr t0 t1 = st.wrap_sync_call fn fr t0 t1 := rfl

/-- Unfolding of a whole `with` statement, analogous to
`wrap_sync_call_eq` (no name assignment happens). -/
theorem with_block_eq {α : Type} (st : TimerSentinel)
    (br : Except PyErr α) (t0 t1 : ℚ) :
    st.with_block br t0 t1 =
      (((st.ended_state t0 t1).report).1,
        ((st.ended_state t0 t1).report).2.1,
        match ((st.ended_state t0 t1).report).2.2 with
        | Except.error e => Except.error e
        | Except.ok _ => br) := by
  show (match ((st.ended_state t0 t1).report).2.2 with
    | Except.error e =>
        (((st.ended_state t0 t1).report).1,
          ((st.ended_state t0 t1).report).2.1, Except.error e)
    | Except.ok _ =>
        (((st.ended_state t0 t1).report).1,
          ((st.ended_state t0 t1).report).2.1, br)) = _
  rcases h : ((st.ended_state t0 t1).report).2.2 with e | u <;> simp [h]

/-- A sentinel constructed without a name, so the lazy function-name
assignment is active (`_use_func_name = True`). -/
def wStLazy : TimerSentinel :=
  TimerSentinel.init 1 none "OVERTIME" WARNING none none "deadbeef"

/-- C2 (counterexample): one lazily-named sentinel wrapping two different
callables.  After invoking the wrapper of `f` the name is `"f"`; invoking
the wrapper of `g` afterwards CHANGES the name again, to `"g"` — the
assignment is not "at most once per instance". -/
theorem c2_counterexample :
    (wStLazy.wrap_sync_call "f" (Except.ok (0 : Nat)) 0 0).1.name = "f" ∧
    ((wStLazy.wrap_sync_call "f" (Except.ok (0 : Nat)) 0 0).1.wrap_sync_call
        "g" (Except.ok (0 : Nat)) 0 0).1.name = "g" ∧
    ("g" : String) ≠ "f" := by
  have h1 : (wStLazy.wrap_sync_call "f" (Except.ok (0 : Nat)) 0 0).1 =
      wStLazy.cycle_state "f" 0 0 := by
    rw [wrap_sync_call_eq]
    exact report_fst _
  have h2 : ((wStLazy.cycle_state "f" 0 0).wrap_sync_call
      "g" (Except.ok (0 : Nat)) 0 0).1 =
      (wStLazy.cycle_state "f" 0 0).cycle_state "g" 0 0 := by
    rw [wrap_sync_call_eq]
    exact report_fst _
  refine ⟨?_, ?_, by decide⟩
  · rw [h1]
    rfl
  · rw [h1, h2]
    rfl

/-- C2 (amended): when no explicit name was supplied, EVERY invocation of a
wrapped callable (sync or async) assigns that callable's name to the
sentinel, and the lazy flag stays set.  Hence for a single wrapped callable
the name equals the callable's name after the first invocation and never
changes on its subsequent invocations — but wrapping a different callable
with the same instance changes the name again on each of its invocations. -/
theorem c2_name_set_on_every_invocation {α : Type} (st : TimerSentinel)
    (fn : String) (fr : Except PyErr α) (t0 t1 : ℚ)
    (h : st.use_func_name = true) :
    (st.wrap_sync_call fn fr t0 t1).1.name = fn ∧
    (st.wrap_sync_call fn fr t0 t1).1.use_func_name = true ∧
    (st.wrap_async_call fn fr t0 t1).1.name = fn ∧
    (st.wrap_async_call fn fr t0 t1).1.use_func_name = true := by
  have h1 : (st.wrap_sync_call fn fr t0 t1).1 = st.cycle_state fn t0 t1 := by
    rw [wrap_sync_call_eq]
    exact report_fst _
  have hname : (st.cycle_state fn t0 t1).name = fn := by
    unfold TimerSentinel.cycle_state TimerSentinel.ended_state
    simp [h]
  have hflag : (st.cycle_state fn t0 t1).use_func_name = true := by
    unfold TimerSentinel.cycle_state TimerSentinel.ended_state
    simp [h]
  rw [wrap_async_call_eq_sync, h1]
  exact ⟨hname, hflag, hname, hflag⟩

theorem c2_name_set_on_every_invocation_witness :
    wStLazy.use_func_name = true ∧
    ((wStLazy.wrap_sync_call "f" (Except.ok (0 : Nat)) 0 0).1.name = "f" ∧
      (wStLazy.wrap_sync_call "f"
        (Except.ok (0 : Nat)) 0 0).1.use_func_name = true ∧
      (wStLazy.wrap_async_call "f" (Except.ok (0 : Nat)) 0 0).1.name = "f" ∧
      (wStLazy.wrap_async_call "f"
        (Except.ok (0 : Nat)) 0 0).1.use_func_name = true) :=
  ⟨rfl, c2_name_set_on_every_invocation wStLazy "f" (Except.ok 0) 0 0 rfl⟩

/-- A sentinel with threshold 0 and a raising callback, freshly
constructed (no measurement yet). -/
def wStBoomFresh : TimerSentinel :=
  TimerSentinel.init 0 (some "test") "OVERTIME" WARNING (some wCbBoom) none
    "abcd1234"

/-- C4 (counterexample): with a raising callback and an over-threshold run,
the sync wrapper does NOT re-raise the wrapped function's exception
(`exc "original"`) unchanged: the callback's exception (`exc "boom"`),
raised inside the `finally` block, replaces it. -/
theorem c4_counterexample :
    (wStBoomFresh.wrap_sync_call "f"
        (Except.error (PyErr.exc "original") : Except PyErr Unit) 0 1).2.2 =
      Except.error (PyErr.exc "boom") ∧
    (Except.error (PyErr.exc "boom") : Except PyErr Unit) ≠
      Except.error (PyErr.exc "original") := by
  constructor
  · rw [wrap_sync_call_eq]
    have hrep : ((wStBoomFresh.cycle_state "f" 0 1).report).2.2 =
        Except.error (PyErr.exc "boom") := by
      norm_num [TimerSentinel.cycle_state, TimerSentinel.ended_state,
        TimerSentinel.report, wStBoomFresh, TimerSentinel.init, wCbBoom,
        show "test".isEmpty = false from rfl]
    dsimp only
    rw [hrep]
  · decide

/-- C4 (amended): after a protected block or wrapped callable finishes
(normally or by raising), the scoped-block wrapper and both callable
wrappers unconditionally run `end()` (the final state's `_total_time` is
the new measurement) and then `report()` on the post-`end()` state (the
emitted trace is exactly `report`'s); provided `report()` itself raises
nothing — in particular, provided any configured callback does not raise —
the original outcome (return value or exception) is propagated unchanged.
(If `report()` raises, e.g. through the callback, that exception replaces
the original outcome: Python `finally` semantics.) -/
theorem c4_cleanup_and_outcome {α : Type} (st : TimerSentinel) (fn : String)
    (fr : Except PyErr α) (t0 t1 : ℚ)
    (hok1 : ((st.cycle_state fn t0 t1).report).2.2 = Except.ok ())
    (hok2 : ((st.ended_state t0 t1).report).2.2 = Except.ok ()) :
    ((st.wrap_sync_call fn fr t0 t1).1.total_time = some (t1 - t0) ∧
      (st.wrap_sync_call fn fr t0 t1).2.1 =
        ((st.cycle_state fn t0 t1).report).2.1 ∧
      (st.wrap_sync_call fn fr t0 t1).2.2 = fr) ∧
    st.wrap_async_call fn fr t0 t1 = st.wrap_sync_call fn fr t0 t1 ∧
    ((st.with_block fr t0 t1).1.total_time = some (t1 - t0) ∧
      (st.with_block fr t0 t1).2.1 = ((st.ended_state t0 t1).report).2.1 ∧
      (st.with_block fr t0 t1).2.2 = fr) := by
  refine ⟨⟨?_, ?_, ?_⟩, wrap_async_call_eq_sync st fn fr t0 t1, ?_, ?_, ?_⟩
  · rw [wrap_sync_call_eq]
    dsimp only
    rw [report_fst]
    rfl
  · rw [wrap_sync_call_eq]
  · rw [wrap_sync_call_eq]
    dsimp only
    rw [hok1]
  · rw [with_block_eq]
    dsimp only
    rw [report_fst]
    rfl
  · rw [with_block_eq]
  · rw [with_block_eq]
    dsimp only
    rw [hok2]

theorem c4_cleanup_and_outcome_witness :
    ((wSt.cycle_state "f" 0 2).report).2.2 = Except.ok () ∧
    ((wSt.ended_state 0 2).report).2.2 = Except.ok () ∧
    (wSt.wrap_sync_call "f" (Except.ok (7 : Nat)) 0 2).2.2 =
      Except.ok (7 : Nat) ∧
    (wSt.with_block (Except.ok (7 : Nat)) 0 2).2.2 = Except.ok (7 : Nat) :=
  have hok1 : ((wSt.cycle_state "f" 0 2).report).2.2 = Except.ok () := by
    norm_num [TimerSentinel.cycle_state, TimerSentinel.ended_state,
      TimerSentinel.report, wSt, TimerSentinel.init,
      show "test".isEmpty = false from rfl]
  have hok2 : ((wSt.ended_state 0 2).report).2.2 = Except.ok () := by
    norm_num [TimerSentinel.ended_state, TimerSentinel.report, wSt,
      TimerSentinel.init, show "test".isEmpty = false from rfl]
  ⟨hok1, hok2,
    (c4_cleanup_and_outcome wSt "f" (Except.ok 7) 0 2 hok1 hok2).1.2.2,
    ((c4_cleanup_and_outcome wSt "f" (Except.ok 7) 0 2 hok1 hok2).2.2).2.2⟩

/-! ### Formatting lemmas for the log message (C6) -/

theorem str_append_assoc (a b c : String) : a ++ b ++ c = a ++ (b ++ c) :=
  String.ext (by simp [String.data_append])

theorem digitChar_isDigit {d : Nat} (h : d < 10) :
    (digitChar d).isDigit = true := by
  interval_cases d <;> decide

theorem natReprAux_digits (fuel n : Nat) :
    ∀ c ∈ natReprAux fuel n, c.isDigit = true := by
  induction fuel generalizing n with
  | zero => intro c hc; simp [natReprAux] at hc
  | succ fuel ih =>
    intro c hc
    rw [natReprAux] at hc
    by_cases h : n < 10
    · rw [if_pos h] at hc
      simp at hc
      subst hc
      exact digitChar_isDigit h
    · rw [if_neg h] at hc
      rcases List.mem_append.mp hc with h1 | h2
      · exact ih (n / 10) c h1
      · simp at h2
        subst h2
        exact digitChar_isDigit (Nat.mod_lt _ (by omega))

theorem natRepr_digits (n : Nat) : ∀ c ∈ natRepr n, c.isDigit = true :=
  natReprAux_digits (n + 1) n

theorem frac4_digits (n : Nat) : ∀ c ∈ frac4 n, c.isDigit = true := by
  intro c hc
  simp [frac4] at hc
  rcases hc with h | h | h | h <;> subst h <;>
    exact digitChar_isDigit (Nat.mod_lt _ (by omega))

theorem isDigit_ne_newline {c : Char} (h : c.isDigit = true) : c ≠ '\n' := by
  intro hc
  subst hc
  exact absurd h (by decide)

theorem noNewline_append {a b : String} (ha : noNewline a)
    (hb : noNewline b) : noNewline (a ++ b) := by
  unfold noNewline at *
  rw [String.data_append, List.mem_append]
  rintro (h | h)
  · exact ha h
  · exact hb h

theorem fmt4abs_no_newline (q : ℚ) : noNewline (fmt4abs q) := by
  unfold fmt4abs
  apply noNewline_append
  · apply noNewline_append
    · exact fun hm => isDigit_ne_newline (natRepr_digits _ _ hm) rfl
    · unfold noNewline
      decide
  · exact fun hm => isDigit_ne_newline (frac4_digits _ _ hm) rfl

theorem fmt4_no_newline (q : ℚ) : noNewline (fmt4 q) := by
  unfold fmt4
  split
  · exact noNewline_append (by unfold noNewline; decide) (fmt4abs_no_newline _)
  · exact fmt4abs_no_newline _

theorem fmt4_four_frac_digits (q : ℚ) :
    ∃ a b : String, fmt4 q = a ++ "." ++ b ∧ b.length = 4 ∧
      ∀ c ∈ b.data, c.isDigit = true := by
  unfold fmt4 fmt4abs
  split
  · refine ⟨"-" ++ String.mk (natRepr ((ratRound (-q * 10000)).toNat / 10000)),
      String.mk (frac4 ((ratRound (-q * 10000)).toNat % 10000)),
      ?_, rfl, frac4_digits _⟩
    simp [str_append_assoc]
  · exact ⟨String.mk (natRepr ((ratRound (q * 10000)).toNat / 10000)),
      String.mk (frac4 ((ratRound (q * 10000)).toNat % 10000)),
      rfl, rfl, frac4_digits _⟩

/-- The over-threshold log message contains the keyword, the name, the
execution id, and the two `:.4f`-formatted values. -/
theorem mkMsg_contains (st : TimerSentinel) (e : ℚ) :
    strContains (st.mkMsg e) st.on_exceed_keyword ∧
    strContains (st.mkMsg e) st.name ∧
    strContains (st.mkMsg e) st.execution_id ∧
    strContains (st.mkMsg e) (fmt4 e) ∧
    strContains (st.mkMsg e) (fmt4 st.threshold) := by
  unfold TimerSentinel.mkMsg
  refine ⟨?_, ?_, ?_, ?_, ?_⟩
  · repeat apply strContains_app_left
    exact strContains_refl _
  · apply strContains_app_left
    apply strContains_app_left
    apply strContains_app_left
    apply strContains_app_left
    apply strContains_app_left
    apply strContains_app_left
    apply strContains_app_left
    exact strContains_app_right _ (strContains_refl _)
  · apply strContains_app_left
    apply strContains_app_left
    apply strContains_app_left
    apply strContains_app_left
    apply strContains_app_left
    exact strContains_app_right _ (strContains_refl _)
  · apply strContains_app_left
    apply strContains_app_left
    apply strContains_app_left
    exact strContains_app_right _ (strContains_refl _)
  · apply strContains_app_left
    exact strContains_app_right _ (strContains_refl _)

/-- The log message is a single line whenever the configured keyword, name
and execution id are. -/
theorem mkMsg_no_newline (st : TimerSentinel) (e : ℚ)
    (hk : noNewline st.on_exceed_keyword) (hn : noNewline st.name)
    (hi : noNewline st.execution_id) : noNewline (st.mkMsg e) := by
  unfold TimerSentinel.mkMsg
  repeat' apply noNewline_append
  all_goals first
    | exact hk
    | exact hn
    | exact hi
    | exact fmt4_no_newline _
    | (unfold noNewline; decide)

/-- C6: every log record emitted by `report()` is at `on_exceed_level` and
its message is the single-line rendering containing the configured keyword,
the name, the execution id, and the elapsed and threshold values each
formatted with exactly 4 fractional decimal digits. -/
theorem c6_log_record_format (st : TimerSentinel) (lvl : Nat) (m : String)
    (hmem : Event.log lvl m ∈ (st.report).2.1) :
    lvl = st.on_exceed_level ∧
    (∃ e, st.total_time = some e ∧ st.threshold < e ∧ m = st.mkMsg e ∧
      strContains m (fmt4 e)) ∧
    strContains m st.on_exceed_keyword ∧
    strContains m st.name ∧
    strContains m st.execution_id ∧
    strContains m (fmt4 st.threshold) ∧
    (∀ q : ℚ, ∃ a b : String, fmt4 q = a ++ "." ++ b ∧ b.length = 4 ∧
      ∀ c ∈ b.data, c.isDigit = true) ∧
    (noNewline st.on_exceed_keyword → noNewline st.name →
      noNewline st.execution_id → noNewline m) := by
  rcases ht : st.total_time with _ | e
  · unfold TimerSentinel.report at hmem
    rw [ht] at hmem
    simp at hmem
  · unfold TimerSentinel.report at hmem
    rw [ht] at hmem
    dsimp only at hmem
    by_cases hgt : e > st.threshold
    · rw [if_pos hgt] at hmem
      have hm : lvl = st.on_exceed_level ∧ m = st.mkMsg e := by
        rcases hcb : st.on_exceed_callback with _ | f <;>
          rw [hcb] at hmem <;> simp at hmem <;> exact ⟨hmem.1, hmem.2⟩
      obtain ⟨hlvl, hmsg⟩ := hm
      subst hlvl
      subst hmsg
      obtain ⟨hkw, hnm, hid, hfe, hft⟩ := mkMsg_contains st e
      exact ⟨rfl, ⟨e, rfl, hgt, rfl, hfe⟩, hkw, hnm, hid, hft,
        fmt4_four_frac_digits, mkMsg_no_newline st e⟩
    · rw [if_neg hgt] at hmem
      simp at hmem

theorem c6_log_record_format_witness :
    Event.log wStEnded.on_exceed_level (wStEnded.mkMsg 2) ∈
      (wStEnded.report).2.1 ∧
    strContains (wStEnded.mkMsg 2) wStEnded.on_exceed_keyword :=
  have hmem : Event.log wStEnded.on_exceed_level (wStEnded.mkMsg 2) ∈
      (wStEnded.report).2.1 := by
    simp [TimerSentinel.report, wStEnded, wSt, TimerSentinel.init]
  ⟨hmem, (c6_log_record_format wStEnded wStEnded.on_exceed_level
    (wStEnded.mkMsg 2) hmem).2.2.1⟩
